import Mathlib

/-!
Verification of the pdf-sentinel analyzer (src/main.rs) against its
specification.

The analyzer consumes a finished document model produced by the external
`lopdf` parser, decodes Flate streams with the external `flate2` crate, and
matches configured regular expressions with the external `regex` crate.
Those collaborators are outside the repository; they are modelled here from
the specification's external-interface contract:

* byte strings are `List Nat` (u8 values);
* the document model is an object map plus a trailer dictionary; casting an
  object to a dictionary succeeds for both the `Dictionary` and the `Stream`
  variant (the spec's data-model invariant: a successful cast to one variant
  does not imply absence of others — a stream carries its own dictionary);
* zlib decompression and UTF-8 decoding are explicit function parameters
  (an `Ext` record), since their graphs are external to the program;
* every configured pattern fragment has the shape `(?i)(w1|...|wk)` — a
  case-insensitive alternation of literal substrings — so one fragment is
  modelled as a list of lowercase-compared literals, and the program's
  `fragments.join("|")` alternation matches a string iff some fragment does,
  except that the join of an empty list is the empty pattern `""`, which the
  regex engine matches against every input.
-/

namespace PdfSentinel

/-- Raw bytes (u8 values) as used for PDF names, strings and stream content. -/
abbrev Bytes := List Nat

/-- Dictionary keys; every key the program uses is an ASCII byte literal, so
keys are modelled as Lean strings. -/
abbrev Key := String

/-- ASCII encoding of a string literal, standing for a Rust byte-string
literal such as b"JavaScript" (all literals in the program are ASCII). -/
def ascii (s : String) : Bytes := s.data.map Char.toNat

/-- The PDF object model consumed from the external parser: a tagged union
over the primitive kinds the engine inspects. -/
inductive Object where
  | Null : Object
  | Boolean : Bool → Object
  | Integer : Int → Object
  | Name : Bytes → Object
  | String : Bytes → Object
  | Array : List Object → Object
  | Dictionary : List (Key × Object) → Object
  | Stream : List (Key × Object) → Bytes → Object
  | Reference : Nat → Nat → Object

/-- A PDF dictionary: an association list from key to object (keys unique). -/
abbrev Dict := List (Key × Object)

/-- Modelled from the spec: the parser's `as_dict` cast. Per the data-model
contract a `Stream` also casts successfully to its own dictionary. -/
def Object.as_dict : Object → Option Dict
  | .Dictionary d => some d
  | .Stream d _ => some d
  | _ => none

/-- Modelled from the spec: the parser's `as_stream` cast, yielding the
stream's dictionary and its raw (possibly compressed) content. -/
def Object.as_stream : Object → Option (Dict × Bytes)
  | .Stream d c => some (d, c)
  | _ => none

/-- Modelled from the spec: the parser's `as_name` cast. -/
def Object.as_name : Object → Option Bytes
  | .Name n => some n
  | _ => none

/-- Modelled from the spec: the parser's `as_string` cast. -/
def Object.as_string : Object → Option Bytes
  | .String s => some s
  | _ => none

/-- Dictionary lookup (`Dictionary::get`). -/
def dictGet (d : Dict) (k : Key) : Option Object :=
  match d.find? (fun kv => kv.1 == k) with
  | some kv => some kv.2
  | none => none

/-- Dictionary key-presence test (`Dictionary::has`). -/
def dictHas (d : Dict) (k : Key) : Bool := (dictGet d k).isSome

/-- Modelled from the spec: the parser's `Stream::filter()` — the declared
filter name from the stream dictionary's Filter entry. -/
def stream_filter (d : Dict) : Option Bytes :=
  match dictGet d "Filter" with
  | some o => o.as_name
  | none => none

/-- The finished document model: object map (id ↦ object, iterated in a
stable order, modelled as a list), trailer dictionary, and the document's
size-in-bytes figure supplied by the external interface. -/
structure Document where
  objects : List ((Nat × Nat) × Object)
  trailer : Dict
  size : Nat

/-- External collaborators passed as explicit functions: `flate2` zlib
decompression (`none` on corrupt data), strict UTF-8 decoding
(`str::from_utf8`, `none` on invalid UTF-8), and lossy UTF-8 decoding
(`String::from_utf8_lossy`, total). -/
structure Ext where
  zlibDecode : Bytes → Option Bytes
  utf8 : Bytes → Option String
  utf8Lossy : Bytes → String

/-- One configured regex fragment `(?i)(w1|...|wk)`: a case-insensitive
alternation of literal substrings. -/
structure Pat where
  alts : List String
deriving DecidableEq

/-- Lowercasing, the effect of the `(?i)` flag on literal matching. -/
def lowerStr (s : String) : String := String.mk (s.data.map Char.toLower)

/-- Whether w occurs as a contiguous substring of s. -/
def containsSub (w : List Char) : List Char → Bool
  | [] => w.isEmpty
  | c :: rest => w.isPrefixOf (c :: rest) || containsSub w rest

/-- Whether one configured fragment matches a haystack: some literal
alternative occurs case-insensitively as a substring. -/
def patMatches (p : Pat) (s : String) : Bool :=
  p.alts.any (fun w => containsSub (lowerStr w).data (lowerStr s).data)

/-- Semantics of `Regex::new(&fragments.join("|")).is_match(s)`: the join of
an empty fragment list is the empty pattern, which matches every input; a
nonempty alternation matches iff some fragment matches. -/
def regexIsMatch (pats : List Pat) (s : String) : Bool :=
  match pats with
  | [] => true
  | _ => pats.any (fun p => patMatches p s)

/-- The analyzer's configuration (struct Config). -/
structure Config where
  file_size_threshold : Nat
  suspicious_patterns : List Pat
  suspicious_metadata_patterns : List Pat

/-- load_config: the default configuration values. -/
def load_config : Config :=
  { file_size_threshold := 10 * 1024 * 1024
  , suspicious_patterns :=
      [⟨["eval"]⟩, ⟨["exec"]⟩, ⟨["spawn"]⟩, ⟨["shell"]⟩]
  , suspicious_metadata_patterns := [⟨["adobe", "microsoft", "office"]⟩] }

/-- struct JavaScriptObject: an extracted script with its object number. -/
structure JavaScriptObject where
  id : Nat
  content : String
deriving DecidableEq

/-- struct ObjectStatistics. -/
structure ObjectStatistics where
  total_objects : Nat
  stream_objects : Nat
  js_objects : Nat
  obj_stm_objects : Nat
deriving DecidableEq

/-- struct AnalysisResult. u32/usize counters are modelled as Nat (all counts
are bounded far below 2^32 on any real document). -/
structure AnalysisResult where
  has_javascript : Bool
  has_auto_action : Bool
  has_obj_stm : Bool
  suspicious_names : List String
  hidden_content : Bool
  large_file_size : Bool
  suspicious_metadata : Bool
  unusual_objects : List String
  object_statistics : ObjectStatistics
  severity_score : Nat
  javascript_objects : List JavaScriptObject
deriving DecidableEq

/-- check_for_javascript: some object's dictionary has a JS or JavaScript
key, or an S key whose name value is JavaScript. -/
def check_for_javascript (doc : Document) : Bool :=
  doc.objects.any (fun p =>
    match p.2.as_dict with
    | some dict =>
        dictHas dict "JS" || dictHas dict "JavaScript" ||
          (match dictGet dict "S" with
           | some s =>
               (match s.as_name with
                | some n => n == ascii "JavaScript"
                | none => false)
           | none => false)
    | none => false)

/-- The per-object body of find_javascript_objects: a JS/JavaScript-keyed
stream with the FlateDecode filter whose content decompresses to valid UTF-8
yields an extracted JavaScriptObject; anything else is skipped. -/
def extract_js (ext : Ext) (id : Nat × Nat) (object : Object) :
    Option JavaScriptObject :=
  match object.as_dict with
  | some dict =>
      if dictHas dict "JS" || dictHas dict "JavaScript" then
        match object.as_stream with
        | some sc =>
            match stream_filter sc.1 with
            | some f =>
                if f == ascii "FlateDecode" then
                  match ext.zlibDecode sc.2 with
                  | some decompressed =>
                      match ext.utf8 decompressed with
                      | some content => some ⟨id.1, content⟩
                      | none => none
                  | none => none
                else none
            | none => none
        | none => none
      else none
  | none => none

/-- find_javascript_objects: the extracted scripts, in object-map order. -/
def find_javascript_objects (ext : Ext) (doc : Document) :
    List JavaScriptObject :=
  doc.objects.filterMap (fun p => extract_js ext p.1 p.2)

/-- check_for_auto_action: some object's dictionary has an AA or OpenAction
key. -/
def check_for_auto_action (doc : Document) : Bool :=
  doc.objects.any (fun p =>
    match p.2.as_dict with
    | some dict => dictHas dict "AA" || dictHas dict "OpenAction"
    | none => false)

/-- check_for_obj_stm: some object's dictionary has an ObjStm key. -/
def check_for_obj_stm (doc : Document) : Bool :=
  doc.objects.any (fun p =>
    match p.2.as_dict with
    | some dict => dictHas dict "ObjStm"
    | none => false)

/-- check_for_suspicious_names: lossily decoded Name and String objects whose
text the suspicious-pattern alternation matches. -/
def check_for_suspicious_names (ext : Ext) (doc : Document) (config : Config) :
    List String :=
  doc.objects.filterMap (fun p =>
    match p.2 with
    | .Name name | .String name =>
        let name_str := ext.utf8Lossy name
        if regexIsMatch config.suspicious_patterns name_str then some name_str
        else none
    | _ => none)

/-- check_for_hidden_content: some object's dictionary has an OCG or OCGs
key. -/
def check_for_hidden_content (doc : Document) : Bool :=
  doc.objects.any (fun p =>
    match p.2.as_dict with
    | some dict => dictHas dict "OCG" || dictHas dict "OCGs"
    | none => false)

/-- check_file_size: the document's size figure strictly exceeds the
configured threshold. -/
def check_file_size (doc : Document) (config : Config) : Bool :=
  decide (doc.size > config.file_size_threshold)

/-- check_metadata: the trailer's Info entry casts to a dictionary holding
some string-valued entry that the known-good-producer alternation does NOT
match; false when no Info entry is present or it is not a dictionary. -/
def check_metadata (ext : Ext) (doc : Document) (config : Config) : Bool :=
  match dictGet doc.trailer "Info" with
  | some info =>
      match info.as_dict with
      | some info_dict =>
          info_dict.any (fun kv =>
            match kv.2.as_string with
            | some str_value =>
                !(regexIsMatch config.suspicious_metadata_patterns
                    (ext.utf8Lossy str_value))
            | none => false)
      | none => false
  | none => false

/-- The allow-list of common Type names in check_for_unusual_objects. -/
def common_types : List Bytes :=
  [ascii "Catalog", ascii "Pages", ascii "Page", ascii "Font",
   ascii "XObject", ascii "Metadata"]

/-- check_for_unusual_objects: lossily decoded Type names outside the
allow-list. -/
def check_for_unusual_objects (ext : Ext) (doc : Document) : List String :=
  doc.objects.filterMap (fun p =>
    match p.2.as_dict with
    | some dict =>
        match dictGet dict "Type" with
        | some type_obj =>
            match type_obj.as_name with
            | some type_name =>
                if !(common_types.contains type_name) then
                  some (ext.utf8Lossy type_name)
                else none
            | none => none
        | none => none
    | none => none)

/-- The loop body of calculate_object_statistics: bump the stream counter for
stream-castable objects and, for dictionary-castable objects, the JS and
ObjStm counters. -/
def stats_step (stats : ObjectStatistics) (obj : Object) : ObjectStatistics :=
  let stats :=
    if obj.as_stream.isSome then
      { stats with stream_objects := stats.stream_objects + 1 }
    else stats
  match obj.as_dict with
  | some dict =>
      let stats :=
        if dictHas dict "JS" || dictHas dict "JavaScript" then
          { stats with js_objects := stats.js_objects + 1 }
        else stats
      if dictHas dict "ObjStm" then
        { stats with obj_stm_objects := stats.obj_stm_objects + 1 }
      else stats
  | none => stats

/-- calculate_object_statistics: total object count plus one fold over the
object map with stats_step. -/
def calculate_object_statistics (doc : Document) : ObjectStatistics :=
  doc.objects.foldl (fun stats p => stats_step stats p.2)
    { total_objects := doc.objects.length
    , stream_objects := 0
    , js_objects := 0
    , obj_stm_objects := 0 }

/-- The findings appended by analyze_streams: one synthetic entry per
FlateDecode stream whose decompressed (lossily decoded) content the
suspicious alternation matches. -/
def stream_findings (ext : Ext) (doc : Document) (config : Config) :
    List String :=
  doc.objects.filterMap (fun p =>
    match p.2.as_stream with
    | some sc =>
        match stream_filter sc.1 with
        | some f =>
            if f == ascii "FlateDecode" then
              match ext.zlibDecode sc.2 with
              | some decompressed =>
                  if regexIsMatch config.suspicious_patterns
                      (ext.utf8Lossy decompressed) then
                    some "Suspicious content in stream"
                  else none
              | none => none
            else none
        | none => none
    | none => none)

/-- analyze_streams: push the synthetic stream findings onto the result's
suspicious_names list. -/
def analyze_streams (ext : Ext) (doc : Document) (config : Config)
    (result : AnalysisResult) : AnalysisResult :=
  { result with
      suspicious_names :=
        result.suspicious_names ++ stream_findings ext doc config }

/-- calculate_severity_score, mirroring the source's sequence of guarded
increments. -/
def calculate_severity_score (result : AnalysisResult) : Nat :=
  let score := 0
  let score := if result.has_javascript then score + 3 else score
  let score := if result.has_auto_action then score + 2 else score
  let score := if result.has_obj_stm then score + 2 else score
  let score := score + result.suspicious_names.length
  let score := if result.hidden_content then score + 2 else score
  let score := if result.large_file_size then score + 1 else score
  let score := if result.suspicious_metadata then score + 2 else score
  let score := score + result.unusual_objects.length
  let score := score + result.object_statistics.js_objects * 2
  let score := score + result.object_statistics.obj_stm_objects
  score

/-- analyze_pdf: run every detector and the statistics pass, append the
stream findings, then compute the severity score. -/
def analyze_pdf (ext : Ext) (doc : Document) (config : Config) :
    AnalysisResult :=
  let result : AnalysisResult :=
    { has_javascript := check_for_javascript doc
    , has_auto_action := check_for_auto_action doc
    , has_obj_stm := check_for_obj_stm doc
    , suspicious_names := check_for_suspicious_names ext doc config
    , hidden_content := check_for_hidden_content doc
    , large_file_size := check_file_size doc config
    , suspicious_metadata := check_metadata ext doc config
    , unusual_objects := check_for_unusual_objects ext doc
    , object_statistics := calculate_object_statistics doc
    , severity_score := 0
    , javascript_objects := find_javascript_objects ext doc }
  let result := analyze_streams ext doc config result
  { result with severity_score := calculate_severity_score result }

/-- The severity tier printed by print_analysis_result (match on 0..=2,
3..=5, 6..=10, _). -/
def severity_tier (score : Nat) : String :=
  if score ≤ 2 then "Low"
  else if score ≤ 5 then "Medium"
  else if score ≤ 10 then "High"
  else "Critical"

/-- The overall assessment printed by print_analysis_result. -/
def assessment (score : Nat) : String :=
  if score > 0 then "Potentially malicious" else "Likely benign"

/-! Concrete fixtures used to evaluate the model on specific documents. All
byte content involved is ASCII, so the UTF-8 collaborators are instantiated
with the ASCII decoding. -/

/-- Decoding of ASCII bytes to a string, the restriction of both
`str::from_utf8` and `String::from_utf8_lossy` to ASCII input. -/
def asciiDecode (bs : Bytes) : String := String.mk (bs.map (fun b => Char.ofNat b))

/-- External collaborators for documents without any decodable stream. -/
def asciiExt : Ext :=
  { zlibDecode := fun _ => none
  , utf8 := fun bs => some (asciiDecode bs)
  , utf8Lossy := asciiDecode }

/-- A document with one JS-keyed dictionary and one AA-keyed dictionary. -/
def jsAndAaDoc : Document :=
  { objects := [((1, 0), Object.Dictionary [("JS", Object.Null)]),
                ((2, 0), Object.Dictionary [("AA", Object.Null)])]
  , trailer := [], size := 0 }

/-- A document whose only scripting indicator is an S key naming JavaScript,
plus one OpenAction-keyed dictionary. -/
def sKeyAndOpenActionDoc : Document :=
  { objects := [((1, 0), Object.Dictionary [("S", Object.Name (ascii "JavaScript"))]),
                ((2, 0), Object.Dictionary [("OpenAction", Object.Null)])]
  , trailer := [], size := 0 }

/-- The default configuration with the suspicious-pattern list emptied. -/
def emptyPatConfig : Config :=
  { file_size_threshold := 10 * 1024 * 1024
  , suspicious_patterns := []
  , suspicious_metadata_patterns := [⟨["adobe", "microsoft", "office"]⟩] }

/-- A document holding a single Name object with text A. -/
def oneNameDoc : Document :=
  { objects := [((1, 0), Object.Name (ascii "A"))], trailer := [], size := 0 }

/-- A document with an empty object map but an unrecognized Info producer
string and an oversized byte figure. -/
def emptyButSuspiciousDoc : Document :=
  { objects := []
  , trailer := [("Info",
      Object.Dictionary [("Producer", Object.String (ascii "EvilCorp"))])]
  , size := 20 * 1024 * 1024 }

/-- The fully empty document: no objects, empty trailer, size zero. -/
def emptyDoc : Document := { objects := [], trailer := [], size := 0 }

/-- A document whose only scripting indicator is a dictionary with an S key
whose name value is JavaScript. -/
def sKeyOnlyDoc : Document :=
  { objects := [((1, 0), Object.Dictionary [("S", Object.Name (ascii "JavaScript"))])]
  , trailer := [], size := 0 }

/-- A stream dictionary with a JS key and the FlateDecode filter. -/
def flateJsDict : Dict :=
  [("JS", Object.Null), ("Filter", Object.Name (ascii "FlateDecode"))]

/-- A stream dictionary with a JS key and an unsupported LZWDecode filter. -/
def lzwJsDict : Dict :=
  [("JS", Object.Null), ("Filter", Object.Name (ascii "LZWDecode"))]

/-- External collaborators for which the byte [1] decompresses to the script
text alert(x), and everything else fails to decompress. -/
def scriptExt : Ext :=
  { zlibDecode := fun bs => if bs == [1] then some (ascii "alert(x)") else none
  , utf8 := fun bs => some (asciiDecode bs)
  , utf8Lossy := asciiDecode }

/-- A document with one Flate-filtered JS stream and one LZW-filtered JS
stream. -/
def twoStreamDoc : Document :=
  { objects := [((1, 0), Object.Stream flateJsDict [1]),
                ((2, 0), Object.Stream lzwJsDict [2])]
  , trailer := [], size := 0 }

/-- One gibibyte: the decompressed size of a realistic decompression bomb,
far above the 10 MiB oversize threshold. -/
def bombLen : Nat := 2 ^ 30

/-- External collaborators modelling a zlib bomb: every compressed input
inflates to a gibibyte of the letter a. -/
def bombExt : Ext :=
  { zlibDecode := fun _ => some (List.replicate bombLen 97)
  , utf8 := fun bs => some (String.mk (bs.map (fun b => Char.ofNat b)))
  , utf8Lossy := fun bs => String.mk (bs.map (fun b => Char.ofNat b)) }

/-- A document with a single Flate-filtered JS stream (the bomb carrier). -/
def bombDoc : Document :=
  { objects := [((1, 0), Object.Stream flateJsDict [120, 156])]
  , trailer := [], size := 0 }

/-- Whether an object casts to a dictionary carrying a JS or JavaScript key
(the predicate counted by the js_objects statistic). -/
def objHasJsKey (o : Object) : Bool :=
  match o.as_dict with
  | some d => dictHas d "JS" || dictHas d "JavaScript"
  | none => false

/-- Whether an object casts to a dictionary carrying an ObjStm key (the
predicate counted by the obj_stm_objects statistic). -/
def objHasObjStm (o : Object) : Bool :=
  match o.as_dict with
  | some d => dictHas d "ObjStm"
  | none => false

/-! Helper lemmas. -/

/-- The guarded increments of calculate_severity_score collapse to one
weighted sum over the result's fields. -/
theorem score_formula (r : AnalysisResult) :
    calculate_severity_score r =
      (if r.has_javascript then 3 else 0) +
      (if r.has_auto_action then 2 else 0) +
      (if r.has_obj_stm then 2 else 0) +
      r.suspicious_names.length +
      (if r.hidden_content then 2 else 0) +
      (if r.large_file_size then 1 else 0) +
      (if r.suspicious_metadata then 2 else 0) +
      r.unusual_objects.length +
      2 * r.object_statistics.js_objects +
      r.object_statistics.obj_stm_objects := by
  unfold calculate_severity_score
  cases r.has_javascript <;> cases r.has_auto_action <;> cases r.has_obj_stm <;>
    cases r.hidden_content <;> cases r.large_file_size <;>
    cases r.suspicious_metadata <;> simp <;> omega

/-- The fields of the analysis result, unfolded to the individual passes. -/
theorem analyze_pdf_fields (ext : Ext) (doc : Document) (config : Config) :
    analyze_pdf ext doc config =
      { has_javascript := check_for_javascript doc
      , has_auto_action := check_for_auto_action doc
      , has_obj_stm := check_for_obj_stm doc
      , suspicious_names :=
          check_for_suspicious_names ext doc config ++
            stream_findings ext doc config
      , hidden_content := check_for_hidden_content doc
      , large_file_size := check_file_size doc config
      , suspicious_metadata := check_metadata ext doc config
      , unusual_objects := check_for_unusual_objects ext doc
      , object_statistics := calculate_object_statistics doc
      , severity_score := calculate_severity_score
          { has_javascript := check_for_javascript doc
          , has_auto_action := check_for_auto_action doc
          , has_obj_stm := check_for_obj_stm doc
          , suspicious_names :=
              check_for_suspicious_names ext doc config ++
                stream_findings ext doc config
          , hidden_content := check_for_hidden_content doc
          , large_file_size := check_file_size doc config
          , suspicious_metadata := check_metadata ext doc config
          , unusual_objects := check_for_unusual_objects ext doc
          , object_statistics := calculate_object_statistics doc
          , severity_score := 0
          , javascript_objects := find_javascript_objects ext doc }
      , javascript_objects := find_javascript_objects ext doc } := rfl

/-- C1: for every analyzed Document, the severity score equals the weighted
sum 3·[scripting] + 2·[auto-execution] + 2·[object-stream marker] +
|suspicious names/strings| + 2·[hidden content] + 1·[oversized] +
2·[suspicious metadata] + |unusual object types| + 2·(scripting-object
count) + (object-stream-object count). -/
theorem c1_severity_score_formula (ext : Ext) (doc : Document)
    (config : Config) :
    (analyze_pdf ext doc config).severity_score =
      (if (analyze_pdf ext doc config).has_javascript then 3 else 0) +
      (if (analyze_pdf ext doc config).has_auto_action then 2 else 0) +
      (if (analyze_pdf ext doc config).has_obj_stm then 2 else 0) +
      (analyze_pdf ext doc config).suspicious_names.length +
      (if (analyze_pdf ext doc config).hidden_content then 2 else 0) +
      (if (analyze_pdf ext doc config).large_file_size then 1 else 0) +
      (if (analyze_pdf ext doc config).suspicious_metadata then 2 else 0) +
      (analyze_pdf ext doc config).unusual_objects.length +
      2 * (analyze_pdf ext doc config).object_statistics.js_objects +
      (analyze_pdf ext doc config).object_statistics.obj_stm_objects := by
  rw [analyze_pdf_fields]
  exact score_formula _

/-- C3: the severity tier partitions scores into the closed contiguous
ranges 0–2 Low, 3–5 Medium, 6–10 High, 11+ Critical, and the verdict is
Potentially malicious exactly when the score is positive. -/
theorem c3_tier_and_verdict (s : Nat) :
    (severity_tier s = "Low" ↔ s ≤ 2) ∧
    (severity_tier s = "Medium" ↔ 3 ≤ s ∧ s ≤ 5) ∧
    (severity_tier s = "High" ↔ 6 ≤ s ∧ s ≤ 10) ∧
    (severity_tier s = "Critical" ↔ 11 ≤ s) ∧
    (assessment s = "Potentially malicious" ↔ 0 < s) ∧
    (assessment s = "Likely benign" ↔ s = 0) := by
  unfold severity_tier assessment
  split_ifs <;>
    refine ⟨?_, ?_, ?_, ?_, ?_, ?_⟩ <;>
    constructor <;>
    intro h <;>
    first
      | rfl
      | omega
      | exact absurd h (by decide)

/-- C2 (counterexample): a document in which exactly one object's dictionary
contains the scripting key JS and exactly one other contains the
auto-execution key AA, with no other indicator triggering, scores 7 (tier
High), not 5: the JS key is also counted by the js_objects statistic, which
adds 2 more. -/
theorem c2_counterexample :
    (analyze_pdf asciiExt jsAndAaDoc load_config).severity_score = 7 ∧
    (analyze_pdf asciiExt jsAndAaDoc load_config).severity_score ≠ 5 ∧
    severity_tier (analyze_pdf asciiExt jsAndAaDoc load_config).severity_score
      = "High" := by decide

/-- C2 (amended): for a document in which scripting presence holds while the
scripting-object statistic is 0 (as when the only scripting indicator is an
S key whose name value is JavaScript), auto-execution is present, and no
other indicator triggers, the severity score is 5 and the tier is Medium. -/
theorem c2_amended (ext : Ext) (doc : Document) (config : Config)
    (hjs : check_for_javascript doc = true)
    (haa : check_for_auto_action doc = true)
    (hstm : check_for_obj_stm doc = false)
    (hnames : check_for_suspicious_names ext doc config = [])
    (hstreams : stream_findings ext doc config = [])
    (hhid : check_for_hidden_content doc = false)
    (hsize : check_file_size doc config = false)
    (hmeta : check_metadata ext doc config = false)
    (hunusual : check_for_unusual_objects ext doc = [])
    (hjsStat : (calculate_object_statistics doc).js_objects = 0)
    (hstmStat : (calculate_object_statistics doc).obj_stm_objects = 0) :
    (analyze_pdf ext doc config).severity_score = 5 ∧
    severity_tier (analyze_pdf ext doc config).severity_score = "Medium" := by
  have h5 : (analyze_pdf ext doc config).severity_score = 5 := by
    rw [analyze_pdf_fields, score_formula]
    simp [hjs, haa, hstm, hnames, hstreams, hhid, hsize, hmeta, hunusual,
      hjsStat, hstmStat]
  exact ⟨h5, by rw [h5]; decide⟩

/-- C2 (witness): the amended statement holds on the concrete document whose
scripting indicator is the S key, with an OpenAction object besides. -/
theorem c2_amended_witness :
    (analyze_pdf asciiExt sKeyAndOpenActionDoc load_config).severity_score = 5 ∧
    severity_tier
      (analyze_pdf asciiExt sKeyAndOpenActionDoc load_config).severity_score
      = "Medium" :=
  c2_amended asciiExt sKeyAndOpenActionDoc load_config (by decide) (by decide)
    (by decide) (by decide) (by decide) (by decide) (by decide) (by decide)
    (by decide) (by decide) (by decide)

/-- C4 (code divergence): with an empty suspicious-pattern list the joined
pattern is the empty regex, which matches every input, so a lone Name object
A is flagged rather than ignored. -/
theorem c4_empty_patterns_flag_everything :
    check_for_suspicious_names asciiExt oneNameDoc emptyPatConfig = ["A"] ∧
    (analyze_pdf asciiExt oneNameDoc emptyPatConfig).suspicious_names = ["A"] ∧
    regexIsMatch [] "AnyInput" = true := by decide

/-- C10: a document whose only scripting indicator is a dictionary with an S
key naming JavaScript has scripting presence true, a zero scripting-object
statistic, and an empty extracted JavaScriptObject list. -/
theorem c10_presence_without_stat :
    (analyze_pdf asciiExt sKeyOnlyDoc load_config).has_javascript = true ∧
    (analyze_pdf asciiExt sKeyOnlyDoc load_config).object_statistics.js_objects
      = 0 ∧
    (analyze_pdf asciiExt sKeyOnlyDoc load_config).javascript_objects
      = [] := by decide

/-- C6: the suspicious-metadata detector returns true iff the trailer's Info
entry casts to a dictionary holding some string-valued entry that the
known-good-producer alternation does not match, and it returns false when no
Info entry is present. -/
theorem c6_metadata_iff (ext : Ext) (doc : Document) (config : Config) :
    (check_metadata ext doc config = true ↔
      ∃ d, (dictGet doc.trailer "Info").bind Object.as_dict = some d ∧
        ∃ kv ∈ d, ∃ s, Object.as_string kv.2 = some s ∧
          regexIsMatch config.suspicious_metadata_patterns (ext.utf8Lossy s)
            = false) ∧
    ((dictGet doc.trailer "Info").isNone = true →
      check_metadata ext doc config = false) := by
  unfold check_metadata
  cases hInfo : dictGet doc.trailer "Info" with
  | none => simp
  | some info =>
      refine ⟨?_, by simp⟩
      have hb : (some info).bind Object.as_dict = info.as_dict := rfl
      rw [hb]
      cases hd : info.as_dict with
      | none =>
          simp [hd]
      | some d =>
          simp only [hd, Option.some.injEq, List.any_eq_true]
          constructor
          · rintro ⟨kv, hmem, hp⟩
            refine ⟨d, rfl, kv, hmem, ?_⟩
            cases hs : Object.as_string kv.2 with
            | none => simp [hs] at hp
            | some s =>
                refine ⟨s, rfl, ?_⟩
                simp [hs] at hp
                exact hp
          · rintro ⟨d2, hd2, kv, hmem, s, hs, hmatch⟩
            cases hd2
            refine ⟨kv, hmem, ?_⟩
            simp [hs, hmatch]

/-- C6 (witness): on the empty document the Info entry is absent and the
detector returns false, by the theorem's second conjunct. -/
theorem c6_metadata_witness :
    check_metadata asciiExt emptyDoc load_config = false :=
  (c6_metadata_iff asciiExt emptyDoc load_config).2 (by decide)

/-- C8 (counterexample): a document with an empty object map but an
unrecognized Info producer string and an oversized byte figure has
total_objects 0 yet scores 3, tier Medium, verdict Potentially malicious —
refuting score 0 / Low / Likely benign for every zero-object document. -/
theorem c8_counterexample :
    (analyze_pdf asciiExt emptyButSuspiciousDoc load_config).object_statistics.total_objects
      = 0 ∧
    (analyze_pdf asciiExt emptyButSuspiciousDoc load_config).severity_score
      = 3 ∧
    severity_tier
      (analyze_pdf asciiExt emptyButSuspiciousDoc load_config).severity_score
      = "Medium" ∧
    assessment
      (analyze_pdf asciiExt emptyButSuspiciousDoc load_config).severity_score
      = "Potentially malicious" := by decide

/-- C8 (amended): for every Document whose object map is empty and which
additionally triggers neither the suspicious-metadata nor the oversized-file
indicator (the two indicators that do not depend on the object map), the
analysis yields total_objects 0, score 0, tier Low, verdict Likely benign. -/
theorem c8_amended (ext : Ext) (doc : Document) (config : Config)
    (h0 : doc.objects = [])
    (hmeta : check_metadata ext doc config = false)
    (hsize : check_file_size doc config = false) :
    (analyze_pdf ext doc config).object_statistics.total_objects = 0 ∧
    (analyze_pdf ext doc config).severity_score = 0 ∧
    severity_tier (analyze_pdf ext doc config).severity_score = "Low" ∧
    assessment (analyze_pdf ext doc config).severity_score
      = "Likely benign" := by
  have hjs : check_for_javascript doc = false := by
    simp [check_for_javascript, h0]
  have haa : check_for_auto_action doc = false := by
    simp [check_for_auto_action, h0]
  have hstm : check_for_obj_stm doc = false := by
    simp [check_for_obj_stm, h0]
  have hnames : check_for_suspicious_names ext doc config = [] := by
    simp [check_for_suspicious_names, h0]
  have hstreams : stream_findings ext doc config = [] := by
    simp [stream_findings, h0]
  have hhid : check_for_hidden_content doc = false := by
    simp [check_for_hidden_content, h0]
  have hunusual : check_for_unusual_objects ext doc = [] := by
    simp [check_for_unusual_objects, h0]
  have hstats : calculate_object_statistics doc =
      { total_objects := 0, stream_objects := 0, js_objects := 0
      , obj_stm_objects := 0 } := by
    simp [calculate_object_statistics, h0]
  have hscore : (analyze_pdf ext doc config).severity_score = 0 := by
    rw [analyze_pdf_fields, score_formula]
    simp [hjs, haa, hstm, hnames, hstreams, hhid, hsize, hmeta, hunusual,
      hstats]
  refine ⟨?_, hscore, by rw [hscore]; decide, by rw [hscore]; decide⟩
  rw [analyze_pdf_fields]
  simp [hstats]

/-- C8 (witness): the amended statement holds on the fully empty document
with the default configuration. -/
theorem c8_amended_witness :
    (analyze_pdf asciiExt emptyDoc load_config).object_statistics.total_objects
      = 0 ∧
    (analyze_pdf asciiExt emptyDoc load_config).severity_score = 0 ∧
    severity_tier (analyze_pdf asciiExt emptyDoc load_config).severity_score
      = "Low" ∧
    assessment (analyze_pdf asciiExt emptyDoc load_config).severity_score
      = "Likely benign" :=
  c8_amended asciiExt emptyDoc load_config rfl (by decide) (by decide)

/-- C7: a Stream whose dictionary carries a scripting key, whose filter is
FlateDecode, and whose content decompresses to valid UTF-8 is placed in the
extracted list with its object id and the exact decoded text; a Stream whose
dictionary carries a scripting key but whose filter name is not FlateDecode
is skipped by extraction (no error: extraction is total and yields none for
it), while scripting presence is still true from the dictionary key alone. -/
theorem c7_extraction (ext : Ext) (doc : Document) (id : Nat × Nat)
    (dict : Dict) (content bytes : Bytes) (text : String)
    (id2 : Nat × Nat) (dict2 : Dict) (content2 f2 : Bytes) :
    ((id, Object.Stream dict content) ∈ doc.objects →
      (dictHas dict "JS" || dictHas dict "JavaScript") = true →
      stream_filter dict = some (ascii "FlateDecode") →
      ext.zlibDecode content = some bytes →
      ext.utf8 bytes = some text →
      JavaScriptObject.mk id.1 text ∈ find_javascript_objects ext doc) ∧
    ((id2, Object.Stream dict2 content2) ∈ doc.objects →
      (dictHas dict2 "JS" || dictHas dict2 "JavaScript") = true →
      stream_filter dict2 = some f2 →
      (f2 == ascii "FlateDecode") = false →
      extract_js ext id2 (Object.Stream dict2 content2) = none ∧
        check_for_javascript doc = true) := by
  constructor
  · intro hmem hkey hfilter hzlib hutf8
    rw [find_javascript_objects, List.mem_filterMap]
    refine ⟨((id, Object.Stream dict content)), hmem, ?_⟩
    simp [extract_js, Object.as_dict, Object.as_stream, hkey, hfilter,
      hzlib, hutf8]
  · intro hmem hkey hfilter hne
    constructor
    · simp [extract_js, Object.as_dict, Object.as_stream, hkey, hfilter, hne]
    · rw [check_for_javascript, List.any_eq_true]
      refine ⟨(id2, Object.Stream dict2 content2), hmem, ?_⟩
      simp [Object.as_dict, hkey]

/-- C7 (witness): in the two-stream document, the Flate stream decoding to
alert(x) is extracted as object 1 with that exact text, the LZW stream is
skipped, and scripting presence is true. -/
theorem c7_extraction_witness :
    JavaScriptObject.mk 1 "alert(x)" ∈ find_javascript_objects scriptExt twoStreamDoc ∧
    extract_js scriptExt (2, 0) (Object.Stream lzwJsDict [2]) = none ∧
    check_for_javascript twoStreamDoc = true := by
  obtain ⟨hA, hB⟩ :=
    c7_extraction scriptExt twoStreamDoc (1, 0) flateJsDict [1]
      (ascii "alert(x)") "alert(x)" (2, 0) lzwJsDict [2] (ascii "LZWDecode")
  obtain ⟨hskip, hpresent⟩ :=
    hB (by simp [twoStreamDoc]) (by decide) (by decide) (by decide)
  exact ⟨hA (by simp [twoStreamDoc]) (by decide) (by decide) (by decide)
    (by decide), hskip, hpresent⟩

/-- C5 (code divergence): the stream decoder imposes no cap on decompressed
output — a Flate stream inflating to a full gibibyte is not skipped: its
entire decoded text (2^30 characters) is retained in the extracted list. -/
theorem c5_no_decompression_cap :
    (find_javascript_objects bombExt bombDoc).map
      (fun j => j.content.length) = [bombLen] ∧
    10 * 1024 * 1024 < bombLen := by
  constructor
  · have h : find_javascript_objects bombExt bombDoc =
        [⟨1, String.mk ((List.replicate bombLen 97).map
          (fun b => Char.ofNat b))⟩] := rfl
    rw [h]
    show [((List.replicate bombLen 97).map (fun b => Char.ofNat b)).length]
      = [bombLen]
    simp
  · rw [bombLen]
    norm_num

/-- One statistics step adds at most one to each counter, guarded by the
object's shape, and leaves the total untouched. -/
theorem stats_step_eq (s : ObjectStatistics) (o : Object) :
    stats_step s o =
      { total_objects := s.total_objects
      , stream_objects :=
          s.stream_objects + (if o.as_stream.isSome then 1 else 0)
      , js_objects := s.js_objects + (if objHasJsKey o then 1 else 0)
      , obj_stm_objects :=
          s.obj_stm_objects + (if objHasObjStm o then 1 else 0) } := by
  cases o <;>
    simp [stats_step, objHasJsKey, objHasObjStm, Object.as_dict,
      Object.as_stream] <;>
    split_ifs <;>
    simp_all

/-- The statistics fold yields the counts of the three object predicates. -/
theorem stats_fold (l : List ((Nat × Nat) × Object)) (s : ObjectStatistics) :
    l.foldl (fun st p => stats_step st p.2) s =
      { total_objects := s.total_objects
      , stream_objects :=
          s.stream_objects + l.countP (fun p => p.2.as_stream.isSome)
      , js_objects := s.js_objects + l.countP (fun p => objHasJsKey p.2)
      , obj_stm_objects :=
          s.obj_stm_objects + l.countP (fun p => objHasObjStm p.2) } := by
  induction l generalizing s with
  | nil => simp
  | cons a l ih =>
      rw [List.foldl_cons, ih, stats_step_eq]
      dsimp only
      simp only [List.countP_cons]
      congr 1 <;> split_ifs <;> omega

/-- calculate_object_statistics in closed form: the length of the object map
and the three predicate counts. -/
theorem calculate_object_statistics_eq (doc : Document) :
    calculate_object_statistics doc =
      { total_objects := doc.objects.length
      , stream_objects := doc.objects.countP (fun p => p.2.as_stream.isSome)
      , js_objects := doc.objects.countP (fun p => objHasJsKey p.2)
      , obj_stm_objects :=
          doc.objects.countP (fun p => objHasObjStm p.2) } := by
  rw [calculate_object_statistics, stats_fold]
  simp

/-- A filterMap is no longer than the count of any predicate that every kept
element satisfies. -/
theorem length_filterMap_le_countP {α β : Type} (f : α → Option β)
    (q : α → Bool) (h : ∀ a, (f a).isSome = true → q a = true)
    (l : List α) : (l.filterMap f).length ≤ l.countP q := by
  induction l with
  | nil => simp
  | cons a l ih =>
      cases hfa : f a with
      | none =>
          simp only [List.filterMap_cons, hfa, List.countP_cons]
          split_ifs <;> omega
      | some b =>
          have hq : q a = true := h a (by rw [hfa]; rfl)
          simp only [List.filterMap_cons, hfa, List.countP_cons, hq,
            List.length_cons, if_true]
          omega

/-- Extraction only succeeds on objects counted by the js_objects
statistic. -/
theorem extract_js_isSome (ext : Ext) (id : Nat × Nat) (o : Object)
    (h : (extract_js ext id o).isSome = true) : objHasJsKey o = true := by
  rw [extract_js] at h
  rw [objHasJsKey]
  cases hd : o.as_dict with
  | none => simp [hd] at h
  | some d =>
      simp only [hd] at h ⊢
      cases hcond : (dictHas d "JS" || dictHas d "JavaScript") with
      | false => simp [hcond] at h
      | true => rfl

/-- C9: for every analyzed Document, the extracted JavaScriptObject list is
no longer than the scripting-object statistic, and each of the stream-,
scripting- and object-stream-object statistics is at most the total object
count. -/
theorem c9_statistics_invariants (ext : Ext) (doc : Document)
    (config : Config) :
    (analyze_pdf ext doc config).javascript_objects.length ≤
      (analyze_pdf ext doc config).object_statistics.js_objects ∧
    (analyze_pdf ext doc config).object_statistics.stream_objects ≤
      (analyze_pdf ext doc config).object_statistics.total_objects ∧
    (analyze_pdf ext doc config).object_statistics.js_objects ≤
      (analyze_pdf ext doc config).object_statistics.total_objects ∧
    (analyze_pdf ext doc config).object_statistics.obj_stm_objects ≤
      (analyze_pdf ext doc config).object_statistics.total_objects := by
  rw [analyze_pdf_fields]
  simp only [calculate_object_statistics_eq]
  refine ⟨?_, ?_, ?_, ?_⟩
  · rw [find_javascript_objects]
    exact length_filterMap_le_countP _ _
      (fun a => extract_js_isSome ext a.1 a.2) doc.objects
  · exact List.countP_le_length _
  · exact List.countP_le_length _
  · exact List.countP_le_length _

end PdfSentinel
